import Mathlib

/-!
Shallow embedding of the go-rpc package (rpc.go, rpc_test.go): a JSON-over-HTTP
RPC mechanism consisting of a reflection-based registry (`Register`), a
server-side dispatcher (`Serve`) and a client-side caller (`Call`).

JSON documents are modelled as parsed values (`JVal`); wire bodies (`Bytes`)
are either a valid JSON document or plain text that is not a JSON document,
which covers every body this program ever produces (`http.Error` texts such
as "Bad request" never start with a byte that can begin a JSON value).
Go machine integers appear only in payload fields of the test types, where
no overflow is exercised, and are modelled as `Int`; sequence numbers
(`uint64`) are modelled as `Nat`.
-/

namespace Rpc

/-- A parsed JSON document, the model of the bytes handled by encoding/json. -/
inductive JVal where
  | null
  | bool (b : Bool)
  | num (n : Int)
  | str (s : String)
  | arr (xs : List JVal)
  | obj (fields : List (String × JVal))

/-- A wire body: either bytes that parse as a JSON document, or plain text
that does not (every plain text emitted by this program starts with an
ASCII letter other than t, f, n, so it never parses as JSON). -/
inductive Bytes where
  | jsonOf (v : JVal)
  | text (s : String)

/-- The kinds of Go reflect types this program distinguishes. -/
inductive GoKind where
  | kPtr
  | kStruct
  | kInt
  | kInterface
  | kOther
deriving DecidableEq

/-- The fragment of Go reflect.Type used by rpc.go: a type has a kind, a
name (empty for unnamed types), a package path (empty for builtin and
unnamed types), and pointer types have an element type.  An unnamed Go
pointer type has an empty name and an empty package path. -/
inductive GoType where
  | base (kind : GoKind) (name pkgPath : String)
  | ptr (name pkgPath : String) (elem : GoType)
deriving DecidableEq

/-- reflect.Type.Kind(). -/
def GoType.kind : GoType → GoKind
  | .base k _ _ => k
  | .ptr _ _ _ => .kPtr

/-- reflect.Type.Name(). -/
def GoType.name : GoType → String
  | .base _ n _ => n
  | .ptr n _ _ => n

/-- reflect.Type.PkgPath(). -/
def GoType.pkgPath : GoType → String
  | .base _ _ p => p
  | .ptr _ p _ => p

/-- reflect.Type.Elem() for pointer types (identity elsewhere, unused there). -/
def GoType.elem : GoType → GoType
  | .base k n p => .base k n p
  | .ptr _ _ e => e

/-- `var typeOfError = reflect.TypeOf((*error)(nil)).Elem()`: the standard
error interface type, a builtin named interface. -/
def typeOfError : GoType := .base .kInterface "error" ""

/-- token.IsExported: whether the name starts with an upper-case letter. -/
def isExported (s : String) : Bool :=
  match s.data with
  | [] => false
  | c :: _ => c.isUpper

/-- A go/token placeholder type used as the default for guarded list access
(the source only reads In(1), In(2), Out(0) behind NumIn/NumOut checks). -/
def dummyType : GoType := .base .kOther "" ""

/-- One method of a Go object as seen by reflect, together with its
denotation: `decodeReq` is json.Unmarshal at the method's request type
(returning the canonical JSON image of the decoded value), and `impl` is
the method body called on a decoded request, returning the JSON image of
the response value it wrote and the error it returned (`none` = nil). -/
structure GoMethod where
  name : String
  pkgPath : String
  ins : List GoType
  outs : List GoType
  decodeReq : JVal → Option JVal
  impl : JVal → JVal × Option String

/-- A Go object passed to Register: `typeName` is
`reflect.Indirect(reflect.ValueOf(i)).Type().Name()` and `methods` is the
method set of `reflect.TypeOf(i)`. -/
structure GoObject where
  typeName : String
  methods : List GoMethod

/-- The registry's Method record: qualified name, request/response reflect
types, and the denotation of the stored reflect.Method and receiver. -/
structure MethodEntry where
  Name : String
  RequestType : GoType
  ResponseType : GoType
  decodeReq : JVal → Option JVal
  impl : JVal → JVal × Option String

/-- The Service: a map from qualified method name to Method, modelled as an
association list with overwriting insertion. -/
structure Service where
  Methods : List (String × MethodEntry)

/-- func New() *Service. -/
def New : Service := { Methods := [] }

/-- Go map assignment `m[k] = v`: overwrite the binding if present,
otherwise add it. -/
def mapInsert (mp : List (String × MethodEntry)) (k : String) (v : MethodEntry) :
    List (String × MethodEntry) :=
  match mp with
  | [] => [(k, v)]
  | (k₀, v₀) :: rest =>
    if k₀ = k then (k, v) :: rest else (k₀, v₀) :: mapInsert rest k v

/-- The body of Register's method loop for one method: the chain of
`continue` guards from rpc.go lines 62-109, ending in the map assignment. -/
def registerOne (name : String) (mp : List (String × MethodEntry))
    (method : GoMethod) : List (String × MethodEntry) :=
  let methodName := name ++ "." ++ method.name
  if method.pkgPath ≠ "" then mp
  else if method.ins.length ≠ 3 then mp
  else
    let requestType := method.ins.getD 1 dummyType
    if requestType.kind ≠ GoKind.kPtr then mp
    else if isExported requestType.name = false ∧ requestType.pkgPath ≠ "" then mp
    else
      let responseType := method.ins.getD 2 dummyType
      if responseType.kind ≠ GoKind.kPtr then mp
      else if isExported responseType.name = false ∧ responseType.pkgPath ≠ "" then mp
      else if method.outs.length ≠ 1 then mp
      else if method.outs.getD 0 dummyType ≠ typeOfError then mp
      else mapInsert mp methodName
        { Name := methodName
          RequestType := requestType
          ResponseType := responseType
          decodeReq := method.decodeReq
          impl := method.impl }

/-- func (s *Service) Register(i interface\x7b\x7d) error.  Returns the
post-state of the registry together with the error (`none` = nil); on
error the registry is returned unchanged, as the source mutates
`s.Methods` only after both name checks pass. -/
def Register (s : Service) (obj : GoObject) : Service × Option String :=
  let name := obj.typeName
  if name = "" then (s, some "rpc: type name not found")
  else if isExported name = false then
    (s, some ("rpc: type name " ++ name ++ " is not exported"))
  else ({ Methods := obj.methods.foldl (registerOne name) s.Methods }, none)

/-- func isExportedOrBuiltinType (declared in rpc.go but never called by
Register, which instead tests the pointer type's own name and package
path). -/
def isExportedOrBuiltinType : GoType → Bool
  | .ptr _ _ e => isExportedOrBuiltinType e
  | .base _ n p => isExported n || p == ""

/-- The Request wire envelope.  `Body` is a json.RawMessage: `none` models
the nil RawMessage (unmarshalling it fails), `some v` bytes that parse as
`v`. -/
structure Request where
  ServiceMethod : String
  Body : Option JVal
  Seq : Nat

/-- The Response wire envelope. -/
structure Response where
  ServiceMethod : String
  Body : Option JVal
  Seq : Nat
  Error : String

/-- JSON object field access used by struct unmarshalling. -/
def jLookup (fields : List (String × JVal)) (k : String) : Option JVal :=
  List.lookup k fields

/-- json.Marshal of a Request: all three fields, in declaration order; a
nil RawMessage marshals as null. -/
def encodeRequestEnv (r : Request) : JVal :=
  .obj [("ServiceMethod", .str r.ServiceMethod),
        ("Body", r.Body.getD .null),
        ("Seq", .num (r.Seq : Int))]

/-- json.Marshal of a Response. -/
def encodeResponseEnv (r : Response) : JVal :=
  .obj [("ServiceMethod", .str r.ServiceMethod),
        ("Body", r.Body.getD .null),
        ("Seq", .num (r.Seq : Int)),
        ("Error", .str r.Error)]

/-- Unmarshal a string-typed struct field: absent gives the zero value,
a JSON string gives that string, any other JSON value is a type error. -/
def decodeStrField (fields : List (String × JVal)) (k : String) : Option String :=
  match jLookup fields k with
  | none => some ""
  | some (.str s) => some s
  | some _ => none

/-- Unmarshal a uint64-typed struct field: absent gives 0, a non-negative
JSON number gives its value, a negative number or other value is an error. -/
def decodeSeqField (fields : List (String × JVal)) : Option Nat :=
  match jLookup fields "Seq" with
  | none => some 0
  | some (.num n) => if 0 ≤ n then some n.toNat else none
  | some _ => none

/-- json.Unmarshal of a JSON document into a Request: null leaves the zero
value, an object is decoded field-wise, anything else is a type error.
The Body field is a RawMessage and captures any raw JSON value. -/
def decodeRequestJson (v : JVal) : Option Request :=
  match v with
  | .null => some { ServiceMethod := "", Body := none, Seq := 0 }
  | .obj fields =>
    match decodeStrField fields "ServiceMethod", decodeSeqField fields with
    | some sm, some sq =>
      some { ServiceMethod := sm, Body := jLookup fields "Body", Seq := sq }
    | _, _ => none
  | _ => none

/-- json.Unmarshal of a JSON document into a Response. -/
def decodeResponseJson (v : JVal) : Option Response :=
  match v with
  | .null => some { ServiceMethod := "", Body := none, Seq := 0, Error := "" }
  | .obj fields =>
    match decodeStrField fields "ServiceMethod", decodeSeqField fields,
        decodeStrField fields "Error" with
    | some sm, some sq, some er =>
      some { ServiceMethod := sm, Body := jLookup fields "Body", Seq := sq,
             Error := er }
    | _, _, _ => none
  | _ => none

/-- The error message encoding/json reports when asked to decode a plain
text that does not begin with a byte that can start a JSON value. -/
def invalidCharMsg (s : String) : String :=
  if s = "" then "EOF"
  else "invalid character \x27" ++ String.singleton (s.get 0) ++
    "\x27 looking for beginning of value"

/-- Server-side json.NewDecoder(r.Body).Decode(&req) on a wire body. -/
def decodeRequestEnv : Bytes → Option Request
  | .jsonOf v => decodeRequestJson v
  | .text _ => none

/-- Client-side json.NewDecoder(resp.Body).Decode(&res) on a wire body,
with the decoder's error message. -/
def decodeResponseEnv : Bytes → Except String Response
  | .jsonOf v =>
    match decodeResponseJson v with
    | some r => .ok r
    | none => .error "json: cannot unmarshal value into Go value of type rpc.Response"
  | .text s => .error (invalidCharMsg s)

/-- An inbound HTTP request as seen by the handler: its method, the
Content-Type header, and its body. -/
structure HttpRequest where
  method : String
  contentType : String
  body : Bytes

/-- An HTTP response: status code, Content-Type header, body. -/
structure HttpResponse where
  status : Nat
  contentType : String
  body : Bytes

/-- http.Error(w, msg, code): plain-text body `msg` plus a newline, with
the text/plain content type. -/
def httpError (msg : String) (code : Nat) : HttpResponse :=
  { status := code
    contentType := "text/plain; charset=utf-8"
    body := .text (msg ++ "\n") }

/-- func (s *Service) Serve() http.Handler: the handler body, dispatching
one HTTP request against the registry.  JSON marshalling of the response
value and of the Response envelope is total for every shape this program
serializes, so the two marshal-failure branches of the source are
unreachable in the model. -/
def Serve (s : Service) (r : HttpRequest) : HttpResponse :=
  if r.method ≠ "POST" then httpError "Method not allowed" 405
  else if r.contentType ≠ "application/json" then
    httpError "Content-Type must be application/json" 415
  else
    match decodeRequestEnv r.body with
    | none => httpError "Bad request" 400
    | some req =>
      match List.lookup req.ServiceMethod s.Methods with
      | none => httpError "Bad request" 400
      | some m =>
        match req.Body.bind m.decodeReq with
        | none => httpError "Bad request" 400
        | some reqVal =>
          match m.impl reqVal with
          | (_, some errMsg) => httpError errMsg 500
          | (resVal, none) =>
            { status := 200
              contentType := "application/json"
              body := .jsonOf (encodeResponseEnv
                { ServiceMethod := req.ServiceMethod
                  Body := some resVal
                  Seq := req.Seq
                  Error := "" }) }

/-- The tail of Call after the HTTP exchange: decode the Response envelope,
surface a remote error, otherwise unmarshal the body into the caller's
result value. -/
def callFinish {β : Type} (decRes : JVal → Option β) (resp : HttpResponse) :
    Except String β :=
  match decodeResponseEnv resp.body with
  | .error e => .error ("rpc: error reading response body: " ++ e)
  | .ok res =>
    if res.Error ≠ "" then .error ("rpc: server: " ++ res.Error)
    else
      match res.Body with
      | none => .error "rpc: unexpected end of JSON input"
      | some b =>
        match decRes b with
        | none => .error "rpc: json: cannot unmarshal value"
        | some v => .ok v

/-- func (s *Service) Call(httpClient, uri, method, reqBody, resBody) error.
The HTTP POST is abstracted as `post`, a function from the serialized
Request envelope to the HTTP response; `encReq`/`decRes` are json.Marshal
at the caller's request type and json.Unmarshal at its result type.  On
success the decoded result value is returned (the source writes it into
`resBody` in place). -/
def Call {α β : Type} (s : Service) (post : JVal → HttpResponse)
    (method : String) (encReq : α → Option JVal) (decRes : JVal → Option β)
    (reqBody : α) : Except String β :=
  match List.lookup method s.Methods with
  | none => .error ("rpc: can\x27t find method \"" ++ method ++ "\"")
  | some m =>
    match encReq reqBody with
    | none => .error "rpc: error encoding request"
    | some reqBodyBytes =>
      let req : Request :=
        { ServiceMethod := m.Name, Body := some reqBodyBytes, Seq := 0 }
      callFinish decRes (post (encodeRequestEnv req))

/-- The wiring of the integration test: the client posts to the server's
handler with content type application/json. -/
def serveVia (s : Service) : JVal → HttpResponse :=
  fun j => Serve s { method := "POST", contentType := "application/json",
                     body := .jsonOf j }

/-! ### The concrete types of rpc_test.go -/

/-- type AddRequest struct \x7b A, B int \x7d. -/
structure AddRequest where
  A : Int
  B : Int
deriving DecidableEq

/-- type AddResponse struct \x7b X int \x7d. -/
structure AddResponse where
  X : Int
deriving DecidableEq

/-- Unmarshal an int-typed struct field: absent gives 0, a JSON number its
value, anything else a type error. -/
def decodeIntField (fields : List (String × JVal)) (k : String) : Option Int :=
  match jLookup fields k with
  | none => some 0
  | some (.num n) => some n
  | some _ => none

/-- json.Unmarshal into an AddRequest. -/
def decodeAddRequest (v : JVal) : Option AddRequest :=
  match v with
  | .null => some { A := 0, B := 0 }
  | .obj fields =>
    match decodeIntField fields "A", decodeIntField fields "B" with
    | some a, some b => some { A := a, B := b }
    | _, _ => none
  | _ => none

/-- json.Marshal of an AddRequest. -/
def encodeAddRequest (r : AddRequest) : JVal :=
  .obj [("A", .num r.A), ("B", .num r.B)]

/-- json.Unmarshal into an AddResponse. -/
def decodeAddResponse (v : JVal) : Option AddResponse :=
  match v with
  | .null => some { X := 0 }
  | .obj fields =>
    match decodeIntField fields "X" with
    | some x => some { X := x }
    | _ => none
  | _ => none

/-- json.Marshal of an AddResponse. -/
def encodeAddResponse (r : AddResponse) : JVal :=
  .obj [("X", .num r.X)]

/-- The body of func (m *Math) Add: res.X = req.A + req.B, return nil. -/
def mathAdd (req : AddRequest) : AddResponse :=
  { X := req.A + req.B }

/-- The reflect type of the test package's Math struct. -/
def mathType : GoType := .base .kStruct "Math" "github.com/geoah/go-rpc"

/-- The reflect type of AddRequest. -/
def addRequestType : GoType := .base .kStruct "AddRequest" "github.com/geoah/go-rpc"

/-- The reflect type of AddResponse. -/
def addResponseType : GoType := .base .kStruct "AddResponse" "github.com/geoah/go-rpc"

/-- The reflect view and denotation of Math.Add: exported, three inputs
(receiver *Math, *AddRequest, *AddResponse), one error output. -/
def addGoMethod : GoMethod :=
  { name := "Add"
    pkgPath := ""
    ins := [.ptr "" "" mathType, .ptr "" "" addRequestType, .ptr "" "" addResponseType]
    outs := [typeOfError]
    decodeReq := fun v => (decodeAddRequest v).map encodeAddRequest
    impl := fun v =>
      match decodeAddRequest v with
      | some r => (encodeAddResponse (mathAdd r), none)
      | none => (.null, none) }

/-- The test object &Math\x7b\x7d as seen by Register. -/
def mathObj : GoObject := { typeName := "Math", methods := [addGoMethod] }

/-- The registry of the integration test after s.Register(&Math\x7b\x7d). -/
def mathService : Service := (Register New mathObj).1

/-! ### A division procedure, for the division-by-zero scenario -/

/-- The body of a procedure Div(req *AddRequest, res *AddResponse) error
that fails with "division by zero" when req.B is zero and otherwise sets
res.X = req.A / req.B (Go's truncating integer division). -/
def mathDiv (req : AddRequest) : AddResponse × Option String :=
  if req.B = 0 then ({ X := 0 }, some "division by zero")
  else ({ X := Int.tdiv req.A req.B }, none)

/-- The reflect view and denotation of Math.Div. -/
def divGoMethod : GoMethod :=
  { name := "Div"
    pkgPath := ""
    ins := [.ptr "" "" mathType, .ptr "" "" addRequestType, .ptr "" "" addResponseType]
    outs := [typeOfError]
    decodeReq := fun v => (decodeAddRequest v).map encodeAddRequest
    impl := fun v =>
      match decodeAddRequest v with
      | some r =>
        match mathDiv r with
        | (res, e) => (encodeAddResponse res, e)
      | none => (.null, none) }

/-- A Math object exposing both Add and Div. -/
def mathDivObj : GoObject := { typeName := "Math", methods := [addGoMethod, divGoMethod] }

/-- The registry after registering the Math object with Add and Div. -/
def mathDivService : Service := (Register New mathDivObj).1

/-! ### The specification's method filter, and an object refuting it -/

/-- Modelled from the spec: parameter condition "both parameters are
pointer-to-struct types". -/
def specPtrToStruct (t : GoType) : Bool :=
  match t with
  | .ptr _ _ e => decide (e.kind = GoKind.kStruct)
  | .base _ _ _ => false

/-- Modelled from the spec: parameter condition "the pointed-to type is
either a public named type or an unnamed/builtin type". -/
def specElemExportedOrBuiltin (t : GoType) : Bool :=
  match t with
  | .ptr _ _ e => isExported e.name || decide (e.pkgPath = "")
  | .base _ _ _ => false

/-- Modelled from the spec: the claimed five-point method filter — the
method is exported, takes exactly two explicit parameters beyond the
receiver, both parameters are pointer-to-struct, both pointed-to types are
public named or unnamed/builtin, and it returns exactly one value of the
standard error interface type. -/
def specFilter (m : GoMethod) : Bool :=
  isExported m.name &&
  decide (m.ins.length = 3) &&
  specPtrToStruct (m.ins.getD 1 dummyType) &&
  specPtrToStruct (m.ins.getD 2 dummyType) &&
  specElemExportedOrBuiltin (m.ins.getD 1 dummyType) &&
  specElemExportedOrBuiltin (m.ins.getD 2 dummyType) &&
  decide (m.outs.length = 1) &&
  decide (m.outs.getD 0 dummyType = typeOfError)

/-- The filter Register actually applies, read off the guard chain of the
method loop: exported method, exactly two explicit parameters, both of
pointer kind whose pointer type itself has an exported name or an empty
package path (true of every unnamed pointer type), and exactly one result
of the error interface type. -/
def codeFilter (m : GoMethod) : Bool :=
  decide (m.pkgPath = "") &&
  decide (m.ins.length = 3) &&
  codeParamOk (m.ins.getD 1 dummyType) &&
  codeParamOk (m.ins.getD 2 dummyType) &&
  decide (m.outs.length = 1) &&
  decide (m.outs.getD 0 dummyType = typeOfError)
where
  /-- One parameter guard of the loop: pointer kind, and not
  (unexported name ∧ non-empty package path) — tested on the pointer type
  itself, not on the pointed-to type. -/
  codeParamOk (t : GoType) : Bool :=
    decide (t.kind = GoKind.kPtr) && (isExported t.name || decide (t.pkgPath = ""))

/-- An unexported struct type addRequest in the same package. -/
def lowerRequestType : GoType := .base .kStruct "addRequest" "github.com/geoah/go-rpc"

/-- A method BadAdd(req *addRequest, res *AddResponse) error whose first
parameter points to an unexported named struct type: the claimed filter
rejects it, yet Register accepts it. -/
def badAddGoMethod : GoMethod :=
  { name := "BadAdd"
    pkgPath := ""
    ins := [.ptr "" "" mathType, .ptr "" "" lowerRequestType, .ptr "" "" addResponseType]
    outs := [typeOfError]
    decodeReq := fun v => (decodeAddRequest v).map encodeAddRequest
    impl := fun v =>
      match decodeAddRequest v with
      | some r => (encodeAddResponse (mathAdd r), none)
      | none => (.null, none) }

/-- A method IntAdd(req *int, res *AddResponse) error whose first
parameter points to a builtin non-struct type: the claimed filter rejects
it (not pointer-to-struct), yet Register accepts it. -/
def intAddGoMethod : GoMethod :=
  { name := "IntAdd"
    pkgPath := ""
    ins := [.ptr "" "" mathType, .ptr "" "" (.base .kInt "int" ""), .ptr "" "" addResponseType]
    outs := [typeOfError]
    decodeReq := fun _ => none
    impl := fun _ => (.null, none) }

/-- An exported object whose two methods each violate one of the claimed
filter conditions while passing every guard of the source's method loop. -/
def math2Obj : GoObject :=
  { typeName := "Math2", methods := [badAddGoMethod, intAddGoMethod] }

/-- The registry entry Register builds for Math.Add. -/
def addEntry : MethodEntry :=
  { Name := "Math.Add"
    RequestType := .ptr "" "" addRequestType
    ResponseType := .ptr "" "" addResponseType
    decodeReq := addGoMethod.decodeReq
    impl := addGoMethod.impl }

/-- The registry entry Register builds for Math.Div. -/
def divEntry : MethodEntry :=
  { Name := "Math.Div"
    RequestType := .ptr "" "" addRequestType
    ResponseType := .ptr "" "" addResponseType
    decodeReq := divGoMethod.decodeReq
    impl := divGoMethod.impl }

/-- The error string carried by an Except result, empty on success. -/
def errText {β : Type} : Except String β → String
  | .error e => e
  | .ok _ => ""

/-- Whether the second character list starts with the first. -/
def charsStartWith : List Char → List Char → Bool
  | [], _ => true
  | _ :: _, [] => false
  | c :: cs, d :: ds => (c == d) && charsStartWith cs ds

/-- Whether `sub` occurs as a contiguous run inside `s`. -/
def charsContain (sub s : List Char) : Bool :=
  match s with
  | [] => sub.isEmpty
  | _ :: cs => charsStartWith sub s || charsContain sub cs

/-- Whether `sub` occurs as a substring of `s`. -/
def strContains (s sub : String) : Bool :=
  charsContain sub.data s.data

/-- A trivial HTTP client returning an empty-document body, used to show
results that must not depend on the exchange. -/
def nullPost : JVal → HttpResponse :=
  fun _ => { status := 200, contentType := "application/json", body := .jsonOf .null }

/-- Replace the status code of every response of a client with 999,
leaving the body untouched. -/
def tweakStatus (p : JVal → HttpResponse) : JVal → HttpResponse :=
  fun j => { status := 999, contentType := (p j).contentType, body := (p j).body }

/-! ### Helper lemmas -/

/-- callFinish reads only the body of the HTTP response. -/
theorem callFinish_congr {β : Type} (decRes : JVal → Option β)
    (r₁ r₂ : HttpResponse) (h : r₁.body = r₂.body) :
    callFinish decRes r₁ = callFinish decRes r₂ := by
  cases r₁
  cases r₂
  simp only at h
  subst h
  rfl

/-- The two qualified registration error strings never coincide. -/
theorem unexp_ne_invalid (n : String) :
    "rpc: type name " ++ n ++ " is not exported" ≠ "rpc: type name not found" := by
  intro h
  have hlen := congrArg String.length h
  rw [String.length_append, String.length_append] at hlen
  have e₁ : ("rpc: type name " : String).length = 15 := rfl
  have e₂ : (" is not exported" : String).length = 16 := rfl
  have e₃ : ("rpc: type name not found" : String).length = 24 := rfl
  omega

/-- The conditions under which the dispatcher answers 400 Bad request:
the body does not decode as a Request envelope, or the envelope's
serviceMethod is absent from the registry, or the envelope's body does not
decode at the resolved method's request shape. -/
def badRequestCond (s : Service) (r : HttpRequest) : Prop :=
  decodeRequestEnv r.body = none ∨
  ∃ req, decodeRequestEnv r.body = some req ∧
    (List.lookup req.ServiceMethod s.Methods = none ∨
     ∃ m, List.lookup req.ServiceMethod s.Methods = some m ∧
       req.Body.bind m.decodeReq = none)

/-! ### Dispatcher theorems -/

/-- C6: a non-POST request is answered 405 and a POST without the exact
application/json content type is answered 415; in both cases the response
is a constant independent of the registry and of the request body, so the
registry is never consulted and the envelope never read. -/
theorem serve_transport_guards (s : Service) (r : HttpRequest) :
    (r.method ≠ "POST" → Serve s r = httpError "Method not allowed" 405) ∧
    (r.method = "POST" → r.contentType ≠ "application/json" →
      Serve s r = httpError "Content-Type must be application/json" 415) := by
  constructor
  · intro h
    simp [Serve, h]
  · intro h₁ h₂
    simp [Serve, h₁, h₂]

theorem serve_transport_guards_witness :
    Serve New { method := "GET", contentType := "application/json", body := .text "x" } =
      httpError "Method not allowed" 405 ∧
    Serve New { method := "POST", contentType := "text/plain", body := .text "x" } =
      httpError "Content-Type must be application/json" 415 :=
  ⟨(serve_transport_guards New _).1 (by decide),
   (serve_transport_guards New _).2 rfl (by decide)⟩

/-- C3: when a dispatched procedure returns a non-nil error, the dispatcher
answers 500 with the error's message text as a bare plain-text body (plus
the newline http.Error appends), not a Response envelope. -/
theorem serve_procedure_error_500 (s : Service) (r : HttpRequest) (req : Request)
    (m : MethodEntry) (rv resJ : JVal) (emsg : String)
    (hm : r.method = "POST") (hct : r.contentType = "application/json")
    (hdec : decodeRequestEnv r.body = some req)
    (hlk : List.lookup req.ServiceMethod s.Methods = some m)
    (hin : req.Body.bind m.decodeReq = some rv)
    (hp : m.impl rv = (resJ, some emsg)) :
    Serve s r = httpError emsg 500 := by
  simp [Serve, hm, hct, hdec, hlk, hin, hp]

theorem serve_procedure_error_500_witness :
    Serve mathDivService
      { method := "POST", contentType := "application/json",
        body := .jsonOf (encodeRequestEnv
          { ServiceMethod := "Math.Div",
            Body := some (encodeAddRequest { A := 1, B := 0 }), Seq := 7 }) } =
      httpError "division by zero" 500 :=
  serve_procedure_error_500 mathDivService _
    { ServiceMethod := "Math.Div", Body := some (encodeAddRequest { A := 1, B := 0 }),
      Seq := 7 }
    divEntry (encodeAddRequest { A := 1, B := 0 }) (encodeAddResponse { X := 0 })
    "division by zero" rfl rfl rfl rfl rfl rfl

/-- C4: a fully successful dispatch answers 200 with a JSON Response
envelope echoing the incoming envelope's serviceMethod and seq unchanged
and carrying an empty error field. -/
theorem serve_success_envelope (s : Service) (r : HttpRequest) (req : Request)
    (m : MethodEntry) (rv resJ : JVal)
    (hm : r.method = "POST") (hct : r.contentType = "application/json")
    (hdec : decodeRequestEnv r.body = some req)
    (hlk : List.lookup req.ServiceMethod s.Methods = some m)
    (hin : req.Body.bind m.decodeReq = some rv)
    (hp : m.impl rv = (resJ, none)) :
    Serve s r =
      { status := 200
        contentType := "application/json"
        body := .jsonOf (encodeResponseEnv
          { ServiceMethod := req.ServiceMethod
            Body := some resJ
            Seq := req.Seq
            Error := "" }) } := by
  simp [Serve, hm, hct, hdec, hlk, hin, hp]

theorem serve_success_envelope_witness :
    Serve mathService
      { method := "POST", contentType := "application/json",
        body := .jsonOf (encodeRequestEnv
          { ServiceMethod := "Math.Add",
            Body := some (encodeAddRequest { A := 1, B := 2 }), Seq := 42 }) } =
      { status := 200
        contentType := "application/json"
        body := .jsonOf (encodeResponseEnv
          { ServiceMethod := "Math.Add"
            Body := some (encodeAddResponse { X := 3 })
            Seq := 42
            Error := "" }) } :=
  serve_success_envelope mathService _
    { ServiceMethod := "Math.Add", Body := some (encodeAddRequest { A := 1, B := 2 }),
      Seq := 42 }
    addEntry (encodeAddRequest { A := 1, B := 2 }) (encodeAddResponse { X := 3 })
    rfl rfl rfl rfl rfl rfl

/-- C7: for a POST with the exact JSON content type, the dispatcher
answers 400 Bad request precisely when the envelope fails to decode, the
serviceMethod is unknown, or the inner body fails to decode at the
resolved method's request shape; the three checks are made in that order
and no procedure is invoked on that path. -/
theorem serve_bad_request_iff (s : Service) (r : HttpRequest)
    (hm : r.method = "POST") (hct : r.contentType = "application/json") :
    Serve s r = httpError "Bad request" 400 ↔ badRequestCond s r := by
  constructor
  · intro h
    rcases hdec : decodeRequestEnv r.body with _ | req
    · exact Or.inl hdec
    · rcases hlk : List.lookup req.ServiceMethod s.Methods with _ | m
      · exact Or.inr ⟨req, hdec, Or.inl hlk⟩
      · rcases hin : req.Body.bind m.decodeReq with _ | rv
        · exact Or.inr ⟨req, hdec, Or.inr ⟨m, hlk, hin⟩⟩
        · exfalso
          rcases himp : m.impl rv with ⟨resJ, errOpt⟩
          cases errOpt with
          | some emsg =>
            simp [Serve, hm, hct, hdec, hlk, hin, himp, httpError] at h
          | none =>
            simp [Serve, hm, hct, hdec, hlk, hin, himp, httpError] at h
  · intro h
    rcases h with hdec | ⟨req, hdec, hlk | ⟨m, hlk, hin⟩⟩
    · simp [Serve, hm, hct, hdec]
    · simp [Serve, hm, hct, hdec, hlk]
    · simp [Serve, hm, hct, hdec, hlk, hin]

theorem serve_bad_request_iff_witness :
    Serve mathService
      { method := "POST", contentType := "application/json", body := .text "oops" } =
      httpError "Bad request" 400 :=
  (serve_bad_request_iff mathService _ rfl rfl).mpr (Or.inl rfl)

/-! ### Register failure modes -/

/-- C5: Register fails with the invalid-type error exactly when the
object's underlying type name is empty, fails with the unexported-type
error exactly when that name is non-empty and not exported, fails in no
other case, and on failure leaves the registry untouched. -/
theorem register_failure_modes (s : Service) (obj : GoObject) :
    ((Register s obj).2 = some "rpc: type name not found" ↔ obj.typeName = "") ∧
    ((Register s obj).2 =
        some ("rpc: type name " ++ obj.typeName ++ " is not exported") ↔
      obj.typeName ≠ "" ∧ isExported obj.typeName = false) ∧
    ((Register s obj).2 ≠ none ↔
      (obj.typeName = "" ∨ isExported obj.typeName = false)) ∧
    ((Register s obj).2 ≠ none → (Register s obj).1 = s) := by
  by_cases h₁ : obj.typeName = ""
  · refine ⟨by simp [Register, h₁], ?_, by simp [Register, h₁], by simp [Register, h₁]⟩
    rw [h₁]
    simp [Register, h₁]
  · by_cases h₂ : isExported obj.typeName = false
    · refine ⟨?_, by simp [Register, h₁, h₂], by simp [Register, h₁, h₂],
        by simp [Register, h₁, h₂]⟩
      simp only [Register, h₁, h₂, if_neg, if_pos, if_false]
      simp [h₁]
      exact unexp_ne_invalid obj.typeName
    · have h₂' : isExported obj.typeName = true := by
        cases h : isExported obj.typeName
        · exact absurd h h₂
        · rfl
      simp [Register, h₁, h₂']

theorem register_failure_modes_witness :
    (Register New { typeName := "math", methods := [addGoMethod] }).1 = New :=
  (register_failure_modes New _).2.2.2
    ((register_failure_modes New _).2.2.1.mpr (Or.inr rfl))

/-! ### Caller theorems -/

/-- C8: Call with a name absent from the local registry fails with the
method-not-found error, uniformly in the HTTP client and in the request
encoder, so nothing is encoded and no exchange happens; with the name
present, the whole call factors through one POST of an envelope whose
serviceMethod is the canonical qualified name stored in the registry
entry. -/
theorem call_local_lookup {α β : Type} (s : Service) (method : String)
    (decRes : JVal → Option β) :
    (List.lookup method s.Methods = none →
      ∀ (post : JVal → HttpResponse) (encReq : α → Option JVal) (reqBody : α),
        Call s post method encReq decRes reqBody =
          .error ("rpc: can\x27t find method \"" ++ method ++ "\"")) ∧
    (∀ m, List.lookup method s.Methods = some m →
      ∀ (post : JVal → HttpResponse) (encReq : α → Option JVal) (reqBody : α)
        (b : JVal), encReq reqBody = some b →
        Call s post method encReq decRes reqBody =
          callFinish decRes (post (encodeRequestEnv
            { ServiceMethod := m.Name, Body := some b, Seq := 0 }))) := by
  constructor
  · intro h post encReq reqBody
    simp [Call, h]
  · intro m hm post encReq reqBody b hb
    simp [Call, hm, hb]

theorem call_local_lookup_witness :
    Call New nullPost "Math.Sub"
      (fun (r : AddRequest) => some (encodeAddRequest r)) decodeAddResponse
      { A := 1, B := 2 } =
      .error "rpc: can\x27t find method \"Math.Sub\"" ∧
    Call mathService nullPost "Math.Add"
      (fun (r : AddRequest) => some (encodeAddRequest r)) decodeAddResponse
      { A := 1, B := 2 } =
      callFinish decodeAddResponse (nullPost (encodeRequestEnv
        { ServiceMethod := "Math.Add",
          Body := some (encodeAddRequest { A := 1, B := 2 }), Seq := 0 })) :=
  ⟨(call_local_lookup New "Math.Sub" decodeAddResponse).1 rfl nullPost _ _,
   (call_local_lookup mathService "Math.Add" decodeAddResponse).2 addEntry rfl
     nullPost _ _ (encodeAddRequest { A := 1, B := 2 }) rfl⟩

/-- C10: Call never reads the HTTP status code: two clients whose
responses agree byte-for-byte on the body yield identical call outcomes
whatever their status codes, the tail of Call is invariant under changing
the status and headers of a response, and the dispatcher's plain-text
rejection bodies (for example "Bad request") surface to the caller as
envelope-decoding errors. -/
theorem call_status_blind :
    (∀ {α β : Type} (s : Service) (p₁ p₂ : JVal → HttpResponse),
      (∀ j, (p₁ j).body = (p₂ j).body) →
      ∀ (method : String) (encReq : α → Option JVal) (decRes : JVal → Option β)
        (reqBody : α),
        Call s p₁ method encReq decRes reqBody =
          Call s p₂ method encReq decRes reqBody) ∧
    (∀ {β : Type} (decRes : JVal → Option β) (st₁ st₂ : Nat) (ct₁ ct₂ : String)
      (b : Bytes),
      callFinish decRes { status := st₁, contentType := ct₁, body := b } =
        callFinish decRes { status := st₂, contentType := ct₂, body := b }) ∧
    (∀ {β : Type} (decRes : JVal → Option β) (st : Nat) (ct : String),
      callFinish decRes ⟨st, ct, .text "Bad request\n"⟩ =
        .error ("rpc: error reading response body: " ++
          "invalid character \x27B\x27 looking for beginning of value")) := by
  refine ⟨?_, ?_, ?_⟩
  · intro α β s p₁ p₂ hbody method encReq decRes reqBody
    unfold Call
    cases List.lookup method s.Methods with
    | none => rfl
    | some m =>
      cases encReq reqBody with
      | none => rfl
      | some b =>
        exact callFinish_congr decRes _ _ (hbody _)
  · intro β decRes st₁ st₂ ct₁ ct₂ b
    rfl
  · intro β decRes st ct
    rfl

theorem call_status_blind_witness :
    Call mathService (serveVia mathService) "Math.Add"
      (fun (r : AddRequest) => some (encodeAddRequest r)) decodeAddResponse
      { A := 1, B := 2 } =
    Call mathService (tweakStatus (serveVia mathService)) "Math.Add"
      (fun (r : AddRequest) => some (encodeAddRequest r)) decodeAddResponse
      { A := 1, B := 2 } :=
  call_status_blind.1 mathService (serveVia mathService)
    (tweakStatus (serveVia mathService)) (fun _ => rfl) "Math.Add" _ _ _

/-- C2 as stated is false: a procedure failing with "division by zero"
produces a bare plain-text 500 body, so the client's envelope decode fails
with a message that does not contain "division by zero". -/
theorem call_remote_error_counterexample :
    strContains
      (errText (Call mathDivService (serveVia mathDivService) "Math.Div"
        (fun (r : AddRequest) => some (encodeAddRequest r)) decodeAddResponse
        { A := 1, B := 0 }))
      "division by zero" = false := by
  decide

/-! ### Envelope round-trips and the full-stack round-trip -/

/-- Decoding a marshalled Request envelope with a set body recovers it. -/
theorem decodeRequestJson_encode (sm : String) (b : JVal) (n : Nat) :
    decodeRequestJson (encodeRequestEnv
      { ServiceMethod := sm, Body := some b, Seq := n }) =
      some { ServiceMethod := sm, Body := some b, Seq := n } := by
  simp [encodeRequestEnv, decodeRequestJson, decodeStrField, decodeSeqField,
    jLookup, List.lookup, Int.toNat_natCast]

/-- Decoding a marshalled Response envelope with a set body recovers it. -/
theorem decodeResponseJson_encode (sm : String) (b : JVal) (n : Nat) (er : String) :
    decodeResponseJson (encodeResponseEnv
      { ServiceMethod := sm, Body := some b, Seq := n, Error := er }) =
      some { ServiceMethod := sm, Body := some b, Seq := n, Error := er } := by
  simp [encodeResponseEnv, decodeResponseJson, decodeStrField, decodeSeqField,
    jLookup, List.lookup, Int.toNat_natCast]

/-- C9: a successfully registered method called through the full stack
(Call posting to Serve over the same registry) succeeds, and the response
decoded on the client is exactly the value the server-side procedure
produced. -/
theorem call_roundtrip_registered {α β : Type} (s : Service) (m : MethodEntry)
    (encReq : α → Option JVal) (decRes : JVal → Option β) (reqBody : α)
    (rb rv resJ : JVal) (out : β)
    (hname : List.lookup m.Name s.Methods = some m)
    (he : encReq reqBody = some rb)
    (hd : m.decodeReq rb = some rv)
    (hp : m.impl rv = (resJ, none))
    (hdr : decRes resJ = some out) :
    Call s (serveVia s) m.Name encReq decRes reqBody = .ok out := by
  simp [Call, hname, he, serveVia, Serve, decodeRequestEnv,
    decodeRequestJson_encode, hd, hp, callFinish, decodeResponseEnv,
    decodeResponseJson_encode, hdr]

theorem call_roundtrip_registered_witness :
    Call mathService (serveVia mathService) "Math.Add"
      (fun (r : AddRequest) => some (encodeAddRequest r)) decodeAddResponse
      { A := 1, B := 2 } = .ok { X := 3 } :=
  call_roundtrip_registered mathService addEntry
    (fun (r : AddRequest) => some (encodeAddRequest r)) decodeAddResponse
    { A := 1, B := 2 }
    (encodeAddRequest { A := 1, B := 2 }) (encodeAddRequest { A := 1, B := 2 })
    (encodeAddResponse { X := 3 }) { X := 3 } rfl rfl rfl rfl rfl

/-- C2 amended: when the registered Math.Div procedure fails with
"division by zero", the client call fails with the envelope-decoding error
produced by the plain-text 500 body; the result value is never populated
and the envelope body field is never reached. -/
theorem call_remote_error_decode_failure :
    Call mathDivService (serveVia mathDivService) "Math.Div"
      (fun (r : AddRequest) => some (encodeAddRequest r)) decodeAddResponse
      { A := 1, B := 0 } =
    .error ("rpc: error reading response body: " ++
      "invalid character \x27d\x27 looking for beginning of value") := by
  rfl

/-! ### Characterization of the registration filter -/

/-- The registry entry Register builds for a selected method. -/
def entryOf (nm : String) (mt : GoMethod) : MethodEntry :=
  { Name := nm ++ "." ++ mt.name
    RequestType := mt.ins.getD 1 dummyType
    ResponseType := mt.ins.getD 2 dummyType
    decodeReq := mt.decodeReq
    impl := mt.impl }

/-- The guard chain of the method loop is exactly the codeFilter test. -/
theorem registerOne_eq (nm : String) (mp : List (String × MethodEntry))
    (mt : GoMethod) :
    registerOne nm mp mt =
      if codeFilter mt = true then
        mapInsert mp (nm ++ "." ++ mt.name) (entryOf nm mt)
      else mp := by
  simp only [registerOne, codeFilter, codeFilter.codeParamOk, entryOf,
    Bool.and_eq_true, Bool.or_eq_true, decide_eq_true_eq, ne_eq]
  split_ifs <;> first
    | rfl
    | (simp_all only [Bool.eq_false_iff, ne_eq] <;> tauto)

/-- Looking up in a map after a Go map assignment. -/
theorem lookup_mapInsert (mp : List (String × MethodEntry)) (k : String)
    (v : MethodEntry) (key : String) :
    List.lookup key (mapInsert mp k v) =
      if key = k then some v else List.lookup key mp := by
  induction mp with
  | nil =>
    by_cases h : key = k
    · subst h
      simp [mapInsert, List.lookup]
    · simp [mapInsert, List.lookup, h, beq_eq_false_iff_ne.mpr h]
  | cons hd tl ih =>
    rcases hd with ⟨k₀, v₀⟩
    by_cases h₀ : k₀ = k
    · subst h₀
      by_cases h : key = k₀
      · subst h
        simp [mapInsert, List.lookup]
      · simp [mapInsert, List.lookup, h, beq_eq_false_iff_ne.mpr h]
    · by_cases h : key = k₀
      · have hkk : ¬key = k := fun he => h₀ (h.symm.trans he)
        simp [mapInsert, List.lookup, h₀, hkk, h]
      · simp [mapInsert, List.lookup, h₀, h, beq_eq_false_iff_ne.mpr h, ih]

/-- A key is bound after the registration loop iff some listed method
passes the filter and carries that qualified name, or the key was already
bound. -/
theorem register_foldl (nm key : String) (ms : List GoMethod)
    (mp : List (String × MethodEntry)) :
    (List.lookup key (ms.foldl (registerOne nm) mp)).isSome = true ↔
      ((∃ mt ∈ ms, codeFilter mt = true ∧ key = nm ++ "." ++ mt.name) ∨
       (List.lookup key mp).isSome = true) := by
  induction ms generalizing mp with
  | nil => simp
  | cons mt ms ih =>
    rw [List.foldl_cons, ih, registerOne_eq]
    by_cases hf : codeFilter mt = true
    · rw [if_pos hf]
      by_cases hk : key = nm ++ "." ++ mt.name
      · simp [lookup_mapInsert, hk, hf]
      · simp only [lookup_mapInsert, if_neg hk, List.mem_cons]
        constructor
        · rintro (⟨mt', hmt', hflt, hkey⟩ | hmp)
          · exact Or.inl ⟨mt', Or.inr hmt', hflt, hkey⟩
          · exact Or.inr hmp
        · rintro (⟨mt', hmem, hflt, hkey⟩ | hmp)
          · rcases hmem with heq | hmem
            · subst heq
              exact absurd hkey hk
            · exact Or.inl ⟨mt', hmem, hflt, hkey⟩
          · exact Or.inr hmp
    · rw [if_neg hf]
      simp only [List.mem_cons]
      constructor
      · rintro (⟨mt', hmt', hflt, hkey⟩ | hmp)
        · exact Or.inl ⟨mt', Or.inr hmt', hflt, hkey⟩
        · exact Or.inr hmp
      · rintro (⟨mt', hmem, hflt, hkey⟩ | hmp)
        · rcases hmem with heq | hmem
          · subst heq
            exact absurd hflt hf
          · exact Or.inl ⟨mt', hmem, hflt, hkey⟩
        · exact Or.inr hmp

/-- C1 amended: for every object with a non-empty exported type name,
Register succeeds, and a method is present in the fresh registry under
"<Type>.<Method>" iff it is exported, takes exactly two explicit
parameters, both of pointer kind whose pointer type itself (never the
pointed-to type) has an exported name or an empty package path — true of
every unnamed pointer type — and returns exactly one value of the error
interface type. -/
theorem register_method_filter (obj : GoObject)
    (h₁ : obj.typeName ≠ "") (h₂ : isExported obj.typeName = true) :
    (Register New obj).2 = none ∧
    ∀ key, (List.lookup key (Register New obj).1.Methods).isSome = true ↔
      ∃ mt ∈ obj.methods, codeFilter mt = true ∧
        key = obj.typeName ++ "." ++ mt.name := by
  constructor
  · simp [Register, h₁, h₂]
  · intro key
    rw [show (Register New obj).1.Methods =
        obj.methods.foldl (registerOne obj.typeName) [] by
      simp [Register, h₁, h₂, New]]
    rw [register_foldl]
    simp [List.lookup]

theorem register_method_filter_witness :
    (Register New mathObj).2 = none ∧
    (List.lookup "Math.Add" (Register New mathObj).1.Methods).isSome = true :=
  ⟨(register_method_filter mathObj (by decide) rfl).1,
   ((register_method_filter mathObj (by decide) rfl).2 "Math.Add").mpr
     ⟨addGoMethod, List.mem_singleton.mpr rfl, rfl, rfl⟩⟩

/-- C1 as stated is false: Register New math2Obj registers both
Math2.BadAdd, whose first parameter points to an unexported named struct
type, and Math2.IntAdd, whose first parameter points to int rather than a
struct, although each fails the claimed five-point filter. -/
theorem register_method_filter_counterexample :
    ((List.lookup "Math2.BadAdd" (Register New math2Obj).1.Methods).isSome = true ∧
      specFilter badAddGoMethod = false) ∧
    ((List.lookup "Math2.IntAdd" (Register New math2Obj).1.Methods).isSome = true ∧
      specFilter intAddGoMethod = false) := by
  refine ⟨⟨rfl, rfl⟩, ⟨rfl, rfl⟩⟩

end Rpc
